import Mathlib

/-!
Verification of the inter-agent messaging core of the ESG_pilot repository:
the in-process message bus (`backend/app/bus/message_bus.py`), the message
schema (`backend/app/bus/schemas.py`) and the agent message-processing
pipeline (`backend/app/agents/base_agent.py`).

The Python code is shallowly embedded: mutable object state becomes explicit
state records threaded through pure functions, `asyncio` time becomes a `Nat`
clock passed in, and Python dictionaries/sets become association lists / lists
with set-like update operations.  The per-destination-agent `asyncio.Lock`
discipline of `_handle_message_safely` is modelled both as the serialized
fold `fanOut` (the order in which the fan-out tasks acquire the FIFO lock)
and as a small transition system on task phases for the mutual-exclusion
property.
-/

namespace ESGPilot

/-- `MessageType` enum from `backend/app/bus/schemas.py`. -/
inductive MessageType where
  | request
  | response
  | event
  | error
deriving DecidableEq, Repr

/-- `Priority` enum from `backend/app/bus/schemas.py`. -/
inductive Priority where
  | low
  | normal
  | high
  | urgent
deriving DecidableEq, Repr

/-- Python `Dict[str, Any]` payloads/contexts, embedded as association lists
of string keys and string values (the claims only need emptiness and
structural identity of payloads). -/
abbrev Payload := List (String × String)

/-- `A2AMessage` dataclass from `backend/app/bus/schemas.py`.  `timestamp`
and `expires_at` are `Nat` clock readings. -/
structure A2AMessage where
  conversation_id : String
  task_id : String
  from_agent : String
  to_agent : String
  message_type : MessageType
  action : String
  payload : Payload
  message_id : String
  context : Payload
  timestamp : Nat
  priority : Priority
  expires_at : Option Nat := none
  status : String := "pending"
  retry_count : Nat := 0
  max_retries : Nat := 3
  error_message : Option String := none
deriving DecidableEq, Repr

/-- Handlers subscribed on the bus are opaque callbacks; the bus only stores
and invokes them, so they are embedded as numeric identifiers whose
success/failure behaviour is supplied separately. -/
abbrev HandlerId := Nat

/-- The `_stats` dictionary of `MessageBus.__init__`. -/
structure BusStats where
  total_messages : Nat
  processed_messages : Nat
  duplicate_messages : Nat
  failed_messages : Nat
deriving DecidableEq, Repr

/-- Mutable state of a `MessageBus` instance: subscriber registry,
ingress queue, dedup sets, dedup timestamps and counters. -/
structure BusState where
  subscribers : List (String × List HandlerId)
  queue : List A2AMessage
  processing : List String
  processed : List String
  timestamps : List (String × Nat)
  stats : BusStats
deriving DecidableEq, Repr

/-- `MessageBus._message_ttl` (seconds). -/
def messageTTL : Nat := 300

/-- `MessageBus._cleanup_interval` (seconds). -/
def cleanupInterval : Nat := 60

/-- Add to a Python `set` embedded as a list: no-op when already present. -/
def setAdd (l : List String) (k : String) : List String :=
  if k ∈ l then l else k :: l

/-- Python `set.discard`: remove every occurrence of `k`. -/
def setDiscard (l : List String) (k : String) : List String :=
  l.filter (fun x => x != k)

/-- Write `m[k] = v` in a Python dict embedded as an association list. -/
def dictSet (m : List (String × Nat)) (k : String) (v : Nat) :
    List (String × Nat) :=
  (k, v) :: m.filter (fun p => p.1 != k)

/-- Read `m.get(k)` from a Python dict embedded as an association list. -/
def dictGet (m : List (String × Nat)) (k : String) : Option Nat :=
  match m.find? (fun p => p.1 == k) with
  | some p => some p.2
  | none => none

/-- Lookup in the subscriber registry (`self._subscribers`); `none` embeds
`to_agent not in self._subscribers`. -/
def subLookup (subs : List (String × List HandlerId)) (agentId : String) :
    Option (List HandlerId) :=
  match subs.find? (fun p => p.1 == agentId) with
  | some p => some p.2
  | none => none

/-- `MessageBus._generate_message_key`:
`f"{message.conversation_id}:{message.action}:{message.message_id}"`. -/
def generateMessageKey (m : A2AMessage) : String :=
  m.conversation_id ++ ":" ++ m.action ++ ":" ++ m.message_id

/-- `MessageBus._is_duplicate_message`: key already processed or processing. -/
def isDuplicateMessage (s : BusState) (m : A2AMessage) : Bool :=
  decide (generateMessageKey m ∈ s.processed) ||
    decide (generateMessageKey m ∈ s.processing)

/-- `MessageBus._mark_message_processing` at clock time `now`. -/
def markMessageProcessing (now : Nat) (m : A2AMessage) (s : BusState) :
    BusState :=
  let key := generateMessageKey m
  { s with processing := setAdd s.processing key,
           timestamps := dictSet s.timestamps key now }

/-- `MessageBus._mark_message_processed` at clock time `now`. -/
def markMessageProcessed (now : Nat) (m : A2AMessage) (s : BusState) :
    BusState :=
  let key := generateMessageKey m
  { s with processing := setDiscard s.processing key,
           processed := setAdd s.processed key,
           timestamps := dictSet s.timestamps key now }

/-- The keys evicted by `_cleanup_old_messages` at clock time `now`: those
whose recorded timestamp is older than `messageTTL`. -/
def expiredKeys (now : Nat) (s : BusState) : List String :=
  (s.timestamps.filter (fun p => decide (messageTTL < now - p.2))).map
    (fun p => p.1)

/-- `MessageBus._cleanup_old_messages`: evict every key whose timestamp is
older than `messageTTL` from both dedup sets and the timestamp map. -/
def cleanupOldMessages (now : Nat) (s : BusState) : BusState :=
  { s with
    processed :=
      s.processed.filter (fun k => !(decide (k ∈ expiredKeys now s))),
    processing :=
      s.processing.filter (fun k => !(decide (k ∈ expiredKeys now s))),
    timestamps :=
      s.timestamps.filter (fun p => !(decide (messageTTL < now - p.2))) }

/-- `self._stats["total_messages"] += 1` at the top of `publish`. -/
def bumpTotal (s : BusState) : BusState :=
  { s with stats := { s.stats with
      total_messages := s.stats.total_messages + 1 } }

/-- `self._stats["duplicate_messages"] += 1` on the duplicate branch. -/
def bumpDuplicate (s : BusState) : BusState :=
  { s with stats := { s.stats with
      duplicate_messages := s.stats.duplicate_messages + 1 } }

/-- `await self._get_queue().put(message)`. -/
def enqueue (m : A2AMessage) (s : BusState) : BusState :=
  { s with queue := s.queue ++ [m] }

/-- `MessageBus.publish` at clock time `now`: counts the message, drops
duplicates (returning `false`), otherwise marks the key processing and
enqueues (returning `true`).  The `queue.put` of an `asyncio.Queue` with no
size bound cannot fail, so the rollback branch is unreachable and not
modelled. -/
def publish (now : Nat) (m : A2AMessage) (s : BusState) : Bool × BusState :=
  if isDuplicateMessage (bumpTotal s) m then
    (false, bumpDuplicate (bumpTotal s))
  else
    (true, enqueue m (markMessageProcessing now m (bumpTotal s)))

/-- A dedup key is live on the bus while it sits in the `processing` or the
`processed` set — exactly the condition `_is_duplicate_message` tests. -/
def keyLive (s : BusState) (key : String) : Prop :=
  key ∈ s.processing ∨ key ∈ s.processed

/-- `self._stats["processed_messages"] += 1` in `_handle_message_safely`. -/
def bumpProcessedStat (s : BusState) : BusState :=
  { s with stats := { s.stats with
      processed_messages := s.stats.processed_messages + 1 } }

/-- `self._stats["failed_messages"] += 1` in `_handle_message_safely`. -/
def bumpFailedStat (s : BusState) : BusState :=
  { s with stats := { s.stats with
      failed_messages := s.stats.failed_messages + 1 } }

/-- `MessageBus._handle_message_safely` for one handler, run inside the
per-agent lock: re-check the processed set, invoke the handler (its outcome
given by `ok`), then mark the key processed, counting success or failure.
Returns the new state and the list of handler invocations performed. -/
def handleMessageSafely (ok : HandlerId → Bool) (m : A2AMessage) (now : Nat)
    (h : HandlerId) (s : BusState) : BusState × List HandlerId :=
  if generateMessageKey m ∈ s.processed then
    (s, [])
  else if ok h then
    (markMessageProcessed now m (bumpProcessedStat s), [h])
  else
    (markMessageProcessed now m (bumpFailedStat s), [h])

/-- The fan-out of `_dispatch` for one message: one `_handle_message_safely`
task per registered handler.  All tasks contend on the same
`_processing_locks[agent_id]`, an `asyncio.Lock` that is FIFO-fair and is
first reached by the tasks in creation order, so their critical sections run
serially in list order — embedded as a fold threading the bus state. -/
def fanOut (ok : HandlerId → Bool) (m : A2AMessage) (now : Nat) :
    List HandlerId → BusState → BusState × List HandlerId
  | [], s => (s, [])
  | h :: t, s =>
    ((fanOut ok m now t (handleMessageSafely ok m now h s).1).1,
      (handleMessageSafely ok m now h s).2 ++
        (fanOut ok m now t (handleMessageSafely ok m now h s).1).2)

/-- One iteration of the `_dispatch` loop body on a dequeued message:
drop when the destination has no subscriber entry, drop when the key is
already processed, otherwise fan out to every registered handler. -/
def dispatchStep (ok : HandlerId → Bool) (now : Nat) (s : BusState) :
    BusState × List HandlerId :=
  match s.queue with
  | [] => (s, [])
  | m :: rest =>
    match subLookup s.subscribers m.to_agent with
    | none => ({ s with queue := rest }, [])
    | some handlers =>
      if generateMessageKey m ∈ s.processed then ({ s with queue := rest }, [])
      else fanOut ok m now handlers { s with queue := rest }

/-- The dictionary returned by `MessageBus.get_stats`. -/
structure StatsView where
  total_messages : Nat
  processed_messages : Nat
  duplicate_messages : Nat
  failed_messages : Nat
  active_subscribers : Nat
  processing_messages : Nat
  processed_messages_cache : Nat
  queue_size : Nat
deriving DecidableEq, Repr

/-- `MessageBus.get_stats`. -/
def getStats (s : BusState) : StatsView :=
  { total_messages := s.stats.total_messages
    processed_messages := s.stats.processed_messages
    duplicate_messages := s.stats.duplicate_messages
    failed_messages := s.stats.failed_messages
    active_subscribers := s.subscribers.length
    processing_messages := s.processing.length
    processed_messages_cache := s.processed.length
    queue_size := s.queue.length }

/-! ## Agent runtime (`backend/app/agents/base_agent.py`) -/

/-- `AgentError` from `base_agent.py`: carried message, `error_code` and
`recoverable` flag. -/
structure AgentError where
  msg : String
  error_code : String := "AGENT_ERROR"
  recoverable : Bool := true
deriving DecidableEq, Repr

/-- Outcome of one invocation of an agent handler: a Python return value
(`.ok`), a raised `AgentError` (`.agentError`), or a raised unclassified
exception (`.exc`, carrying `str(e)`). -/
inductive ExecResult where
  | ok (r : Option Payload)
  | agentError (e : AgentError)
  | exc (s : String)
deriving DecidableEq, Repr

/-- `BaseAgent._execute_with_retry`: invoke the handler (whose behaviour on
attempt `n` is `handler n`); a recoverable `AgentError` below the retry bound
sleeps and recurses with `retryCount + 1`; everything else propagates.
Returns the final outcome and the number of handler invocations made. -/
def executeWithRetry (maxRetries : Nat) (handler : Nat → ExecResult)
    (retryCount : Nat) : ExecResult × Nat :=
  match handler retryCount with
  | .ok r => (.ok r, 1)
  | .exc s => (.exc s, 1)
  | .agentError e =>
    if h : e.recoverable = true ∧ retryCount < maxRetries then
      let res := executeWithRetry maxRetries handler (retryCount + 1)
      (res.1, res.2 + 1)
    else
      (.agentError e, 1)
termination_by maxRetries - retryCount
decreasing_by omega

/-- Round a rational to the nearest integer, ties to the even integer —
Python 3's `round` (banker's rounding). -/
def roundHalfEven (q : ℚ) : ℤ :=
  let f := ⌊q⌋
  let frac := q - f
  if frac < 1 / 2 then f
  else if 1 / 2 < frac then f + 1
  else if f % 2 = 0 then f else f + 1

/-- Python `round(x, 3)`. -/
def round3 (q : ℚ) : ℚ := (roundHalfEven (q * 1000) : ℚ) / 1000

/-- `BaseAgent._update_average_response_time`, as a function of the current
average, the (already incremented) processed count, and this message's
response time: the first message stores the time directly, later ones store
the running average rounded to three decimals. -/
def updateAverage (currentAvg : ℚ) (totalProcessed : Nat)
    (responseTime : ℚ) : ℚ :=
  if totalProcessed = 1 then responseTime
  else round3 ((currentAvg * ((totalProcessed : ℚ) - 1) + responseTime) /
    (totalProcessed : ℚ))

/-- The response `A2AMessage` constructed by `BaseAgent._send_response`:
`message_id = f"resp_{original_message.message_id}"`, action suffixed with
`"_response"`, routed back to the original sender. -/
def mkResponseMessage (agentId : String) (now : Nat) (orig : A2AMessage)
    (result : Payload) : A2AMessage :=
  { message_id := "resp_" ++ orig.message_id
    conversation_id := orig.conversation_id
    task_id := orig.task_id
    from_agent := agentId
    to_agent := orig.from_agent
    message_type := orig.message_type
    action := orig.action ++ "_response"
    payload := result
    context := orig.context
    timestamp := now
    priority := orig.priority }

/-- The error `A2AMessage` constructed by `BaseAgent._send_error_response`
from the payload built in `_handle_agent_error`:
`message_id = f"error_{original_message.message_id}"`, action `"error"`. -/
def mkErrorMessage (agentId : String) (now : Nat) (nowStr : String)
    (orig : A2AMessage) (e : AgentError) : A2AMessage :=
  { message_id := "error_" ++ orig.message_id
    conversation_id := orig.conversation_id
    task_id := orig.task_id
    from_agent := agentId
    to_agent := orig.from_agent
    message_type := orig.message_type
    action := "error"
    payload := [("error", e.msg), ("error_code", e.error_code),
                ("recoverable", if e.recoverable then "True" else "False"),
                ("agent_id", agentId), ("timestamp", nowStr)]
    context := orig.context
    timestamp := now
    priority := orig.priority }

/-- Per-`BaseAgent` mutable statistics and in-flight request set. -/
structure AgentState where
  processing_requests : List String
  total_errors : Nat
  recoverable_errors : Nat
  critical_errors : Nat
  error_types : List (String × Nat)
  messages_processed : Nat
  messages_failed : Nat
  average_response_time : ℚ
deriving DecidableEq, Repr

/-- `error_types[code] += 1` (creating the entry at 0 first). -/
def bumpErrorType (m : List (String × Nat)) (code : String) :
    List (String × Nat) :=
  match dictGet m code with
  | some n => dictSet m code (n + 1)
  | none => dictSet m code 1

/-- `BaseAgent._handle_agent_error`: update error and failure counters and
construct the error response message sent back to the original sender. -/
def handleAgentError (agentId : String) (now : Nat) (nowStr : String)
    (m : A2AMessage) (e : AgentError) (s : AgentState) :
    AgentState × List A2AMessage :=
  ({ s with
      total_errors := s.total_errors + 1,
      recoverable_errors :=
        s.recoverable_errors + (if e.recoverable then 1 else 0),
      critical_errors :=
        s.critical_errors + (if e.recoverable then 0 else 1),
      error_types := bumpErrorType s.error_types e.error_code,
      messages_failed := s.messages_failed + 1 },
   [mkErrorMessage agentId now nowStr m e])

/-- `BaseAgent._handle_message` for a message whose action handler behaves as
`handler`: guard the in-flight request key, run the handler with retry, send
a response only for a truthy result, update counters, and in all cases clear
the request key (the `finally` block).  `elapsed` is the measured response
time; `arrivalTs` is `start_time.timestamp()` rendered into the request key.
Returns the new agent state and the messages published back on the bus. -/
def handleMessage (agentId : String) (maxRetries : Nat)
    (handler : Nat → ExecResult) (m : A2AMessage) (arrivalTs : String)
    (now : Nat) (nowStr : String) (elapsed : ℚ) (s : AgentState) :
    AgentState × List A2AMessage :=
  let requestId := m.message_id ++ "_" ++ arrivalTs
  if requestId ∈ s.processing_requests then
    ({ s with processing_requests := setDiscard s.processing_requests requestId },
     [])
  else
    match (executeWithRetry maxRetries handler 0).1 with
    | .ok r =>
      let sent :=
        match r with
        | some p => if p.isEmpty then [] else [mkResponseMessage agentId now m p]
        | none => []
      let n := s.messages_processed + 1
      ({ s with
          processing_requests := setDiscard s.processing_requests requestId,
          messages_processed := n,
          average_response_time :=
            updateAverage s.average_response_time n elapsed },
       sent)
    | .agentError e =>
      let r := handleAgentError agentId now nowStr m e s
      ({ r.1 with
          processing_requests := setDiscard r.1.processing_requests requestId },
       r.2)
    | .exc str =>
      let r := handleAgentError agentId now nowStr m
        { msg := "Unexpected error: " ++ str,
          error_code := "AGENT_PROC_ERROR", recoverable := false } s
      ({ r.1 with
          processing_requests := setDiscard r.1.processing_requests requestId },
       r.2)

/-! ## Per-agent lock discipline (`_processing_locks[agent_id]`)

Each fan-out task of `_dispatch` executes `_handle_message_safely`, whose
body — including the `await handler(message)` — runs entirely inside
`async with self._processing_locks[agent_id]`.  The phases of one task and
the lock's acquire/release transitions form a small transition system; the
mutual-exclusion invariant states that no two tasks for the same agent are
in their handler-invocation phase at once. -/

/-- Phase of one fan-out task for a fixed destination agent: waiting on the
agent's lock, holding it while the handler runs, or finished (released). -/
inductive HandlerPhase where
  | waiting
  | handling
  | finished
deriving DecidableEq, Repr

/-- Number of tasks currently inside the lock-protected handler invocation. -/
def handlingCount : List HandlerPhase → Nat
  | [] => 0
  | .handling :: t => handlingCount t + 1
  | .waiting :: t => handlingCount t
  | .finished :: t => handlingCount t

/-- One scheduler step of the fan-out tasks contending on
`_processing_locks[agent_id]`: a waiting task may acquire the free lock and
enter its handler, and a task inside its handler may finish and release. -/
inductive LockStep : List HandlerPhase → List HandlerPhase → Prop where
  | acquire (l : List HandlerPhase) (i : Nat)
      (hw : l.get? i = some .waiting)
      (hfree : HandlerPhase.handling ∉ l) :
      LockStep l (l.set i .handling)
  | release (l : List HandlerPhase) (i : Nat)
      (hh : l.get? i = some .handling) :
      LockStep l (l.set i .finished)

/-- States reachable by the lock scheduler. -/
inductive LockReachable : List HandlerPhase → List HandlerPhase → Prop where
  | refl (s : List HandlerPhase) : LockReachable s s
  | step {s t u : List HandlerPhase} :
      LockReachable s t → LockStep t u → LockReachable s u

/-- Initial fan-out state for `n` handler tasks: all waiting on the lock. -/
def initTasks (n : Nat) : List HandlerPhase :=
  List.replicate n .waiting

/-! ## Basic lemmas about the set/dict embeddings -/

theorem mem_setAdd (l : List String) (k k' : String) :
    k' ∈ setAdd l k ↔ k' = k ∨ k' ∈ l := by
  unfold setAdd
  split
  · constructor
    · exact fun h => Or.inr h
    · rintro (rfl | h) <;> assumption
  · simp [List.mem_cons]

theorem self_mem_setAdd (l : List String) (k : String) : k ∈ setAdd l k := by
  rw [mem_setAdd]; exact Or.inl rfl

theorem mem_setDiscard (l : List String) (k k' : String) :
    k' ∈ setDiscard l k ↔ k' ∈ l ∧ k' ≠ k := by
  unfold setDiscard
  simp [List.mem_filter, bne_iff_ne]

theorem not_mem_setDiscard_self (l : List String) (k : String) :
    k ∉ setDiscard l k := by
  rw [mem_setDiscard]; rintro ⟨-, h⟩; exact h rfl

/-- Concrete message used to instantiate the theorems. -/
def sampleMessage : A2AMessage :=
  { conversation_id := "c1", task_id := "t1", from_agent := "alice",
    to_agent := "bob", message_type := .request, action := "ping",
    payload := [("k", "v")], message_id := "m1", context := [],
    timestamp := 0, priority := .normal }

/-- A freshly constructed bus (`MessageBus.__init__`). -/
def emptyBus : BusState :=
  { subscribers := [], queue := [], processing := [], processed := [],
    timestamps := [], stats := ⟨0, 0, 0, 0⟩ }

/-- C1: a successful `publish` records the message's dedup key as live
(`processing`); while a key is live, publishing any message with the same
`(conversation_id, action, message_id)` key returns `false`, increments the
duplicate counter and does not enqueue; and the key stays live across
`_mark_message_processed` and across any `_cleanup_old_messages` run before
the key's TTL has elapsed — so at most one instance of the key is ever
delivered. -/
theorem publish_dedup_at_most_once
    (now : Nat) (m m' : A2AMessage) (s : BusState)
    (hpub : (publish now m s).1 = true)
    (hkey : generateMessageKey m' = generateMessageKey m) :
    keyLive (publish now m s).2 (generateMessageKey m)
    ∧ (∀ (now' : Nat) (s' : BusState), keyLive s' (generateMessageKey m') →
        (publish now' m' s').1 = false
        ∧ (publish now' m' s').2.stats.duplicate_messages
            = s'.stats.duplicate_messages + 1
        ∧ (publish now' m' s').2.queue = s'.queue)
    ∧ (∀ (now' : Nat) (mm : A2AMessage) (s' : BusState),
        keyLive s' (generateMessageKey m) →
        keyLive (markMessageProcessed now' mm s') (generateMessageKey m))
    ∧ (∀ (now' : Nat) (s' : BusState), keyLive s' (generateMessageKey m) →
        (∀ ts, (generateMessageKey m, ts) ∈ s'.timestamps →
          now' - ts ≤ messageTTL) →
        keyLive (cleanupOldMessages now' s') (generateMessageKey m)) := by
  rw [hkey]
  refine ⟨?_, ?_, ?_, ?_⟩
  · -- the successful publish put the key into `processing`
    cases hd : isDuplicateMessage (bumpTotal s) m with
    | true => simp [publish, hd] at hpub
    | false =>
      have hps : (publish now m s).2
          = enqueue m (markMessageProcessing now m (bumpTotal s)) := by
        simp [publish, hd]
      rw [hps]
      exact Or.inl (self_mem_setAdd _ _)
  · -- a live key makes any same-key publish a counted, unenqueued duplicate
    intro now' s' hlive
    have hdup : isDuplicateMessage (bumpTotal s') m' = true := by
      unfold isDuplicateMessage bumpTotal
      rw [hkey]
      rcases hlive with h | h <;> simp [h]
    have hpe : publish now' m' s' = (false, bumpDuplicate (bumpTotal s')) := by
      simp [publish, hdup]
    rw [hpe]
    exact ⟨rfl, rfl, rfl⟩
  · -- `_mark_message_processed` never drops a live key
    intro now' mm s' hlive
    unfold markMessageProcessed keyLive
    by_cases heq : generateMessageKey m = generateMessageKey mm
    · right
      rw [mem_setAdd]
      exact Or.inl heq
    · rcases hlive with h | h
      · left
        rw [mem_setDiscard]
        exact ⟨h, heq⟩
      · right
        rw [mem_setAdd]
        exact Or.inr h
  · -- cleanup before the TTL has elapsed never drops a live key
    intro now' s' hlive hts
    have hnexp : generateMessageKey m ∉ expiredKeys now' s' := by
      intro hmem
      rcases List.mem_map.mp hmem with ⟨p, hp, hfst⟩
      rcases List.mem_filter.mp hp with ⟨hpm, hold⟩
      obtain ⟨k, ts⟩ := p
      simp only at hfst
      subst hfst
      rw [decide_eq_true_eq] at hold
      have := hts ts hpm
      omega
    unfold cleanupOldMessages keyLive
    rcases hlive with h | h
    · left
      exact List.mem_filter.mpr ⟨h, by simp [hnexp]⟩
    · right
      exact List.mem_filter.mpr ⟨h, by simp [hnexp]⟩

/-- C1 witness: publishing `sampleMessage` on a fresh bus succeeds, and the
dedup guarantees hold for a second publish of the same key. -/
theorem publish_dedup_at_most_once_witness :
    keyLive (publish 0 sampleMessage emptyBus).2 (generateMessageKey sampleMessage)
    ∧ (∀ (now' : Nat) (s' : BusState),
        keyLive s' (generateMessageKey sampleMessage) →
        (publish now' sampleMessage s').1 = false
        ∧ (publish now' sampleMessage s').2.stats.duplicate_messages
            = s'.stats.duplicate_messages + 1
        ∧ (publish now' sampleMessage s').2.queue = s'.queue)
    ∧ (∀ (now' : Nat) (mm : A2AMessage) (s' : BusState),
        keyLive s' (generateMessageKey sampleMessage) →
        keyLive (markMessageProcessed now' mm s') (generateMessageKey sampleMessage))
    ∧ (∀ (now' : Nat) (s' : BusState),
        keyLive s' (generateMessageKey sampleMessage) →
        (∀ ts, (generateMessageKey sampleMessage, ts) ∈ s'.timestamps →
          now' - ts ≤ messageTTL) →
        keyLive (cleanupOldMessages now' s') (generateMessageKey sampleMessage)) :=
  publish_dedup_at_most_once 0 sampleMessage sampleMessage emptyBus
    (by decide) rfl

/-! ## C2: fan-out to multiple handlers of one destination agent -/

theorem handleMessageSafely_of_processed (ok : HandlerId → Bool)
    (m : A2AMessage) (now : Nat) (h : HandlerId) (s : BusState)
    (hp : generateMessageKey m ∈ s.processed) :
    handleMessageSafely ok m now h s = (s, []) := by
  unfold handleMessageSafely
  rw [if_pos hp]

theorem mem_processed_markMessageProcessed (now : Nat) (m : A2AMessage)
    (s : BusState) :
    generateMessageKey m ∈ (markMessageProcessed now m s).processed := by
  unfold markMessageProcessed
  exact self_mem_setAdd _ _

theorem handleMessageSafely_of_not_processed (ok : HandlerId → Bool)
    (m : A2AMessage) (now : Nat) (h : HandlerId) (s : BusState)
    (hnp : generateMessageKey m ∉ s.processed) :
    (handleMessageSafely ok m now h s).2 = [h]
    ∧ generateMessageKey m ∈ (handleMessageSafely ok m now h s).1.processed := by
  unfold handleMessageSafely
  rw [if_neg hnp]
  cases hok : ok h <;>
    simp [hok, mem_processed_markMessageProcessed]

theorem fanOut_of_processed (ok : HandlerId → Bool) (m : A2AMessage)
    (now : Nat) (hs : List HandlerId) (s : BusState)
    (hp : generateMessageKey m ∈ s.processed) :
    fanOut ok m now hs s = (s, []) := by
  induction hs with
  | nil => rfl
  | cons h t ih =>
    simp only [fanOut, handleMessageSafely_of_processed ok m now h s hp, ih,
      List.append_nil]

/-- Bus state right after `sampleMessage` was published, with two handlers
subscribed under its destination agent `"bob"`. -/
def twoHandlerBus : BusState :=
  { subscribers := [("bob", [0, 1])],
    queue := [sampleMessage],
    processing := [generateMessageKey sampleMessage],
    processed := [],
    timestamps := [(generateMessageKey sampleMessage, 0)],
    stats := ⟨1, 0, 0, 0⟩ }

/-- C2 counterexample: with two handlers registered under `"bob"`, the
dispatch of one message addressed to `"bob"` invokes only handler `0`;
handler `1` is never invoked, because the first handler's
`_mark_message_processed` makes the second task's re-check of the processed
set (inside the per-agent lock) skip the handler call. -/
theorem dispatch_skips_second_handler :
    (dispatchStep (fun _ => true) 0 twoHandlerBus).2 = [0]
    ∧ (1 : HandlerId) ∉ (dispatchStep (fun _ => true) 0 twoHandlerBus).2 := by
  decide

/-- C2 amended: dispatching one message to a destination with `N ≥ 1`
registered handlers (key not yet processed) invokes exactly the first
handler in subscription order, once; every later handler is skipped by the
processed-set re-check under the per-agent lock. -/
theorem fanout_invokes_exactly_first_handler (ok : HandlerId → Bool)
    (m : A2AMessage) (now : Nat) (h : HandlerId) (t : List HandlerId)
    (s : BusState) (hnp : generateMessageKey m ∉ s.processed) :
    (fanOut ok m now (h :: t) s).2 = [h] := by
  obtain ⟨h2, hmem⟩ := handleMessageSafely_of_not_processed ok m now h s hnp
  simp only [fanOut, h2, fanOut_of_processed ok m now t _ hmem,
    List.append_nil]

/-- C2 witness: on `twoHandlerBus` the fan-out of `sampleMessage` to the two
handlers of `"bob"` invokes exactly handler `0`. -/
theorem fanout_invokes_exactly_first_handler_witness :
    generateMessageKey sampleMessage ∉ twoHandlerBus.processed
    ∧ (fanOut (fun _ => true) sampleMessage 0 [0, 1] twoHandlerBus).2 = [0] :=
  ⟨by decide,
   fanout_invokes_exactly_first_handler (fun _ => true) sampleMessage 0 0 [1]
     twoHandlerBus (by decide)⟩

/-! ## C5: handler failure still marks the key processed -/

/-- C5: when a subscriber handler raises during bus-level dispatch, the
handler was invoked, the failed-message counter increments, the dedup key is
moved from the `processing` set into the `processed` set, and the queue is
untouched — the bus never re-enqueues the message. -/
theorem handler_failure_marks_processed (ok : HandlerId → Bool)
    (m : A2AMessage) (now : Nat) (h : HandlerId) (s : BusState)
    (hfail : ok h = false) (hnp : generateMessageKey m ∉ s.processed) :
    (handleMessageSafely ok m now h s).2 = [h]
    ∧ (handleMessageSafely ok m now h s).1.stats.failed_messages
        = s.stats.failed_messages + 1
    ∧ generateMessageKey m ∈ (handleMessageSafely ok m now h s).1.processed
    ∧ generateMessageKey m ∉ (handleMessageSafely ok m now h s).1.processing
    ∧ (handleMessageSafely ok m now h s).1.queue = s.queue := by
  unfold handleMessageSafely
  rw [if_neg hnp, hfail, if_neg Bool.false_ne_true]
  exact ⟨rfl, rfl, mem_processed_markMessageProcessed now m _,
    not_mem_setDiscard_self _ _, rfl⟩

/-- C5 witness: a failing handler on `twoHandlerBus`. -/
theorem handler_failure_marks_processed_witness :
    (handleMessageSafely (fun _ => false) sampleMessage 0 0 twoHandlerBus).2 = [0]
    ∧ (handleMessageSafely (fun _ => false) sampleMessage 0 0
        twoHandlerBus).1.stats.failed_messages
        = twoHandlerBus.stats.failed_messages + 1
    ∧ generateMessageKey sampleMessage
        ∈ (handleMessageSafely (fun _ => false) sampleMessage 0 0
            twoHandlerBus).1.processed
    ∧ generateMessageKey sampleMessage
        ∉ (handleMessageSafely (fun _ => false) sampleMessage 0 0
            twoHandlerBus).1.processing
    ∧ (handleMessageSafely (fun _ => false) sampleMessage 0 0
        twoHandlerBus).1.queue = twoHandlerBus.queue :=
  handler_failure_marks_processed (fun _ => false) sampleMessage 0 0
    twoHandlerBus rfl (by decide)

/-! ## C7: unroutable messages are dropped -/

/-- C7: a dequeued message whose destination has no subscriber entry is
dropped: the queue shrinks by exactly that message, no handler is invoked,
no counter changes and nothing is raised; the drop is visible in
`get_stats()` (the queue depth decreases, the processed count does not
move), and the key's dedup liveness is untouched. -/
theorem unroutable_message_dropped (ok : HandlerId → Bool) (now : Nat)
    (s : BusState) (m : A2AMessage) (rest : List A2AMessage)
    (hq : s.queue = m :: rest)
    (hns : subLookup s.subscribers m.to_agent = none) :
    (dispatchStep ok now s).1.queue = rest
    ∧ (dispatchStep ok now s).2 = []
    ∧ (dispatchStep ok now s).1.stats = s.stats
    ∧ (getStats (dispatchStep ok now s).1).queue_size + 1
        = (getStats s).queue_size
    ∧ (getStats (dispatchStep ok now s).1).processed_messages
        = (getStats s).processed_messages
    ∧ (∀ k, keyLive s k → keyLive (dispatchStep ok now s).1 k) := by
  have hd : dispatchStep ok now s = ({ s with queue := rest }, []) := by
    simp only [dispatchStep, hq, hns]
  rw [hd]
  refine ⟨rfl, rfl, rfl, ?_, rfl, fun k hk => hk⟩
  simp [getStats, hq]

/-- Bus holding one published message addressed to an agent id with no
subscribers. -/
def unroutableBus : BusState :=
  { subscribers := [],
    queue := [sampleMessage],
    processing := [generateMessageKey sampleMessage],
    processed := [],
    timestamps := [(generateMessageKey sampleMessage, 0)],
    stats := ⟨1, 0, 0, 0⟩ }

/-- C7 witness: dropping `sampleMessage` on `unroutableBus`. -/
theorem unroutable_message_dropped_witness :
    (dispatchStep (fun _ => true) 0 unroutableBus).1.queue = []
    ∧ (dispatchStep (fun _ => true) 0 unroutableBus).2 = []
    ∧ (dispatchStep (fun _ => true) 0 unroutableBus).1.stats
        = unroutableBus.stats
    ∧ (getStats (dispatchStep (fun _ => true) 0 unroutableBus).1).queue_size + 1
        = (getStats unroutableBus).queue_size
    ∧ (getStats (dispatchStep (fun _ => true) 0
        unroutableBus).1).processed_messages
        = (getStats unroutableBus).processed_messages
    ∧ (∀ k, keyLive unroutableBus k →
        keyLive (dispatchStep (fun _ => true) 0 unroutableBus).1 k) :=
  unroutable_message_dropped (fun _ => true) 0 unroutableBus sampleMessage []
    rfl rfl

/-! ## C3, C4: the agent retry loop -/

theorem executeWithRetry_always_recoverable (maxRetries : Nat)
    (handler : Nat → ExecResult) (e : AgentError)
    (hrec : e.recoverable = true) (hall : ∀ n, handler n = .agentError e)
    (k : Nat) (hk : k ≤ maxRetries) :
    executeWithRetry maxRetries handler k
      = (.agentError e, maxRetries - k + 1) := by
  obtain ⟨n, hn⟩ : ∃ n, maxRetries - k = n := ⟨_, rfl⟩
  induction n generalizing k with
  | zero =>
    rw [executeWithRetry, hall]
    dsimp only
    rw [dif_neg (by rintro ⟨-, hlt⟩; omega)]
    rw [hn]
  | succ n ih =>
    have hlt : k < maxRetries := by omega
    rw [executeWithRetry, hall]
    dsimp only
    rw [dif_pos ⟨hrec, hlt⟩, ih (k + 1) (by omega) (by omega)]
    exact Prod.ext rfl (by omega)

/-- A fresh agent (`BaseAgent.__init__` counters). -/
def emptyAgent : AgentState :=
  { processing_requests := [], total_errors := 0, recoverable_errors := 0,
    critical_errors := 0, error_types := [], messages_processed := 0,
    messages_failed := 0, average_response_time := 0 }

/-- A recoverable processing error (`AgentProcessingError` with the default
`recoverable=True`). -/
def sampleRecoverableError : AgentError :=
  { msg := "boom", error_code := "AGENT_PROC_ERROR", recoverable := true }

/-- C3: a handler that raises the same recoverable `AgentError` on every
attempt is invoked exactly `max_retries + 1` times by
`_execute_with_retry`, the error then propagates as the terminal outcome,
and `_handle_message` surfaces it as a single error message sent back to
the original sender (no further retry). -/
theorem retry_bound_recoverable (maxRetries : Nat)
    (handler : Nat → ExecResult) (e : AgentError) (agentId : String)
    (m : A2AMessage) (arrivalTs : String) (now : Nat) (nowStr : String)
    (elapsed : ℚ) (s : AgentState)
    (hrec : e.recoverable = true) (hall : ∀ n, handler n = .agentError e)
    (hfresh : m.message_id ++ "_" ++ arrivalTs ∉ s.processing_requests) :
    executeWithRetry maxRetries handler 0 = (.agentError e, maxRetries + 1)
    ∧ (handleMessage agentId maxRetries handler m arrivalTs now nowStr
        elapsed s).2 = [mkErrorMessage agentId now nowStr m e] := by
  have hx := executeWithRetry_always_recoverable maxRetries handler e hrec
    hall 0 (Nat.zero_le _)
  rw [Nat.sub_zero] at hx
  refine ⟨hx, ?_⟩
  simp only [handleMessage, hfresh, if_false, hx, handleAgentError]

/-- C3 witness: `max_retries = 3`, the handler raises
`sampleRecoverableError` on every attempt: 4 invocations, then one error
message. -/
theorem retry_bound_recoverable_witness :
    executeWithRetry 3 (fun _ => .agentError sampleRecoverableError) 0
      = (.agentError sampleRecoverableError, 4)
    ∧ (handleMessage "bob" 3 (fun _ => .agentError sampleRecoverableError)
        sampleMessage "100" 0 "t0" 1 emptyAgent).2
      = [mkErrorMessage "bob" 0 "t0" sampleMessage sampleRecoverableError] :=
  retry_bound_recoverable 3 (fun _ => .agentError sampleRecoverableError)
    sampleRecoverableError "bob" sampleMessage "100" 0 "t0" 1 emptyAgent
    rfl (fun _ => rfl) (by decide)

/-- C4: a handler whose first invocation raises a non-recoverable
`AgentError`, or any unclassified exception, is invoked exactly once by
`_execute_with_retry` — no retry — whatever `max_retries` is, and the raised
error is the terminal outcome. -/
theorem nonrecoverable_invoked_once (maxRetries : Nat)
    (handler : Nat → ExecResult)
    (h0 : (∃ e : AgentError, handler 0 = .agentError e ∧ e.recoverable = false)
          ∨ (∃ str, handler 0 = .exc str)) :
    (executeWithRetry maxRetries handler 0).2 = 1
    ∧ (executeWithRetry maxRetries handler 0).1 = handler 0 := by
  rcases h0 with ⟨e, he, hnr⟩ | ⟨str, hs⟩
  · rw [executeWithRetry, he]
    dsimp only
    rw [dif_neg (by rintro ⟨hr, -⟩; rw [hnr] at hr; cases hr)]
    exact ⟨rfl, rfl⟩
  · rw [executeWithRetry, hs]
    dsimp only
    exact ⟨rfl, rfl⟩

/-- C4 witness: a non-recoverable error with `max_retries = 3`, one
invocation. -/
theorem nonrecoverable_invoked_once_witness :
    (executeWithRetry 3
      (fun _ => .agentError ⟨"bad input", "AGENT_PROC_ERROR", false⟩) 0).2 = 1
    ∧ (executeWithRetry 3
        (fun _ => .agentError ⟨"bad input", "AGENT_PROC_ERROR", false⟩) 0).1
      = (fun _ => ExecResult.agentError ⟨"bad input", "AGENT_PROC_ERROR", false⟩) 0 :=
  nonrecoverable_invoked_once 3
    (fun _ => .agentError ⟨"bad input", "AGENT_PROC_ERROR", false⟩)
    (Or.inl ⟨⟨"bad input", "AGENT_PROC_ERROR", false⟩, rfl, rfl⟩)

/-! ## C6: mutual exclusion of handler invocations per destination agent -/

theorem handlingCount_cons (a : HandlerPhase) (t : List HandlerPhase) :
    handlingCount (a :: t)
      = handlingCount t + (if a = .handling then 1 else 0) := by
  cases a <;> simp [handlingCount]

theorem handlingCount_eq_zero_of_not_mem (l : List HandlerPhase)
    (h : HandlerPhase.handling ∉ l) : handlingCount l = 0 := by
  induction l with
  | nil => rfl
  | cons a t ih =>
    rw [handlingCount_cons]
    have ha : a ≠ .handling := fun hh => h (hh ▸ List.mem_cons_self a t)
    rw [if_neg ha, ih (fun hm => h (List.mem_cons_of_mem a hm))]

theorem handlingCount_set_le (l : List HandlerPhase) (i : Nat)
    (ph : HandlerPhase) :
    handlingCount (l.set i ph)
      ≤ handlingCount l + (if ph = .handling then 1 else 0) := by
  induction l generalizing i with
  | nil => simp [List.set, handlingCount]
  | cons a t ih =>
    cases i with
    | zero =>
      rw [List.set_cons_zero, handlingCount_cons, handlingCount_cons]
      split_ifs <;> omega
    | succ n =>
      rw [List.set_cons_succ, handlingCount_cons, handlingCount_cons]
      have := ih n
      omega

theorem handlingCount_initTasks (n : Nat) :
    handlingCount (initTasks n) = 0 := by
  apply handlingCount_eq_zero_of_not_mem
  intro hmem
  rw [initTasks, List.mem_replicate] at hmem
  exact absurd hmem.2 (by decide)

/-- Invariant of the per-agent lock: at any reachable point of the fan-out,
at most one task is inside its lock-protected handler invocation. -/
theorem reachable_handlingCount_le_one (n : Nat) (s : List HandlerPhase)
    (hr : LockReachable (initTasks n) s) : handlingCount s ≤ 1 := by
  induction hr with
  | refl =>
    rw [handlingCount_initTasks]
    omega
  | step _ hstep ih =>
    cases hstep with
    | acquire i hw hfree =>
      have h0 := handlingCount_eq_zero_of_not_mem _ hfree
      refine le_trans (handlingCount_set_le _ i HandlerPhase.handling) ?_
      rw [if_pos rfl, h0]
    | release i hh =>
      refine le_trans (handlingCount_set_le _ i HandlerPhase.finished) ?_
      rw [if_neg (by decide)]
      omega

theorem one_le_handlingCount_of_mem (l : List HandlerPhase)
    (h : HandlerPhase.handling ∈ l) : 1 ≤ handlingCount l := by
  induction l with
  | nil => cases h
  | cons a t ih =>
    rw [handlingCount_cons]
    rcases List.mem_cons.mp h with rfl | hm
    · rw [if_pos rfl]; omega
    · have := ih hm; omega

theorem two_le_handlingCount (l : List HandlerPhase) (i j : Nat) (hij : i < j)
    (hi : l.get? i = some .handling) (hj : l.get? j = some .handling) :
    2 ≤ handlingCount l := by
  induction l generalizing i j with
  | nil => simp at hi
  | cons a t ih =>
    rw [handlingCount_cons]
    cases i with
    | zero =>
      rw [List.get?_cons_zero] at hi
      injection hi with ha
      obtain ⟨j', rfl⟩ : ∃ j', j = j' + 1 := ⟨j - 1, by omega⟩
      rw [List.get?_cons_succ] at hj
      have h1 : 1 ≤ handlingCount t :=
        one_le_handlingCount_of_mem t (List.get?_mem hj)
      rw [ha, if_pos rfl]
      omega
    | succ i' =>
      obtain ⟨j', rfl⟩ : ∃ j', j = j' + 1 := ⟨j - 1, by omega⟩
      rw [List.get?_cons_succ] at hi hj
      have := ih i' j' (by omega) hi hj
      split_ifs <;> omega

/-- C6: in every state reachable by the fan-out tasks of one destination
agent contending on `_processing_locks[agent_id]`, no two distinct tasks are
simultaneously inside their handler invocation — handler executions for one
agent never overlap. -/
theorem per_agent_handler_invocations_serialized (n : Nat)
    (s : List HandlerPhase) (hr : LockReachable (initTasks n) s)
    (i j : Nat) (hij : i ≠ j) :
    ¬(s.get? i = some .handling ∧ s.get? j = some .handling) := by
  rintro ⟨hi, hj⟩
  have h1 : handlingCount s ≤ 1 := reachable_handlingCount_le_one n s hr
  rcases Nat.lt_or_ge i j with hlt | hge
  · have := two_le_handlingCount s i j hlt hi hj
    omega
  · have hlt : j < i := by omega
    have := two_le_handlingCount s j i hlt hj hi
    omega

/-- C6 witness: with two fan-out tasks, after the first acquires the lock
and starts its handler, the reachable state `[handling, waiting]` has no two
overlapping handler invocations. -/
theorem per_agent_handler_invocations_serialized_witness :
    ¬(([HandlerPhase.handling, HandlerPhase.waiting].get? 0
        = some HandlerPhase.handling)
      ∧ ([HandlerPhase.handling, HandlerPhase.waiting].get? 1
        = some HandlerPhase.handling)) :=
  per_agent_handler_invocations_serialized 2
    [HandlerPhase.handling, HandlerPhase.waiting]
    (LockReachable.step (LockReachable.refl (initTasks 2))
      (LockStep.acquire (initTasks 2) 0 (by decide) (by decide)))
    0 1 (by decide)

/-! ## C8: message-id uniqueness -/

/-- A request whose `message_id` is fixed by the producer. -/
def origA : A2AMessage :=
  { conversation_id := "convA", task_id := "t", from_agent := "alice",
    to_agent := "bob", message_type := .request, action := "ping",
    payload := [], message_id := "x", context := [], timestamp := 0,
    priority := .normal }

/-- A second request with the same `message_id` but another conversation:
its dedup key differs from `origA`'s, so the bus processes both. -/
def origB : A2AMessage :=
  { origA with conversation_id := "convB" }

/-- C8 counterexample: `origA` and `origB` are distinct messages with
distinct dedup keys (both get delivered), yet the response messages the
agent runtime constructs for them are two distinct `A2AMessage`s carrying
the *same* `message_id` `"resp_x"` — `message_id` is not unique across the
process lifetime. -/
theorem response_message_ids_collide :
    origA ≠ origB
    ∧ generateMessageKey origA ≠ generateMessageKey origB
    ∧ mkResponseMessage "bob" 1 origA [("r", "1")]
        ≠ mkResponseMessage "bob" 2 origB [("r", "1")]
    ∧ (mkResponseMessage "bob" 1 origA [("r", "1")]).message_id
        = (mkResponseMessage "bob" 2 origB [("r", "1")]).message_id := by
  exact ⟨by decide, by decide, by decide, rfl⟩

/-- C8 amended: the ids of the response and error messages the agent
runtime constructs are derived deterministically (`"resp_" + id`,
`"error_" + id`), so they are distinct whenever the originals' ids are
distinct, and a response id never equals an error id; uniqueness fails only
when two processed originals already share a `message_id` (or one original
is reprocessed, e.g. after TTL eviction). -/
theorem derived_message_ids_distinct (a1 a2 : String) (n1 n2 : Nat)
    (ns1 ns2 : String) (m1 m2 : A2AMessage) (p1 p2 : Payload)
    (e1 e2 : AgentError) (hid : m1.message_id ≠ m2.message_id) :
    (mkResponseMessage a1 n1 m1 p1).message_id
      ≠ (mkResponseMessage a2 n2 m2 p2).message_id
    ∧ (mkErrorMessage a1 n1 ns1 m1 e1).message_id
      ≠ (mkErrorMessage a2 n2 ns2 m2 e2).message_id
    ∧ (mkResponseMessage a1 n1 m1 p1).message_id
      ≠ (mkErrorMessage a2 n2 ns2 m2 e2).message_id := by
  refine ⟨?_, ?_, ?_⟩
  · intro h
    have hd := congrArg String.data h
    simp only [mkResponseMessage, String.data_append] at hd
    exact hid (String.ext (List.append_cancel_left hd))
  · intro h
    have hd := congrArg String.data h
    simp only [mkErrorMessage, String.data_append] at hd
    exact hid (String.ext (List.append_cancel_left hd))
  · intro h
    have hd := congrArg String.data h
    simp [mkResponseMessage, mkErrorMessage, String.data_append] at hd

/-- C8 amended witness: distinct original ids give distinct derived ids. -/
theorem derived_message_ids_distinct_witness :
    origA.message_id ≠ sampleMessage.message_id
    ∧ (mkResponseMessage "bob" 1 origA []).message_id
      ≠ (mkResponseMessage "bob" 1 sampleMessage []).message_id
    ∧ (mkErrorMessage "bob" 1 "t" origA sampleRecoverableError).message_id
      ≠ (mkErrorMessage "bob" 1 "t" sampleMessage
          sampleRecoverableError).message_id
    ∧ (mkResponseMessage "bob" 1 origA []).message_id
      ≠ (mkErrorMessage "bob" 1 "t" sampleMessage
          sampleRecoverableError).message_id :=
  ⟨by decide,
   derived_message_ids_distinct "bob" "bob" 1 1 "t" "t" origA sampleMessage
     [] [] sampleRecoverableError sampleRecoverableError (by decide)⟩

/-! ## C9: the stored running average response time -/

/-- C9 counterexample: with `messages_processed = 2` and a previous average
of `0`, an elapsed time of `3/2000` s makes `_update_average_response_time`
store `round(0.00075, 3) = 0.001`, not the exact running mean `0.00075`. -/
theorem stored_average_is_rounded :
    updateAverage 0 2 (3 / 2000) ≠ (0 * ((2 : ℚ) - 1) + 3 / 2000) / 2
    ∧ updateAverage 0 2 (3 / 2000) = 1 / 1000 := by
  constructor
  · intro h
    rw [updateAverage, if_neg (by omega)] at h
    norm_num [round3, roundHalfEven] at h
  · rw [updateAverage, if_neg (by omega)]
    norm_num [round3, roundHalfEven]

/-- C9 amended: after the `n`-th successfully processed message, the stored
average equals the running mean `(old_avg * (n-1) + elapsed) / n` exactly
when `n = 1`, and that mean rounded half-to-even to three decimals when
`n ≥ 2`. -/
theorem stored_average_formula (oldAvg elapsed : ℚ) (n : Nat) :
    (n = 1 → updateAverage oldAvg n elapsed
      = (oldAvg * ((n : ℚ) - 1) + elapsed) / (n : ℚ))
    ∧ (2 ≤ n → updateAverage oldAvg n elapsed
      = round3 ((oldAvg * ((n : ℚ) - 1) + elapsed) / (n : ℚ))) := by
  constructor
  · rintro rfl
    rw [updateAverage, if_pos rfl]
    norm_num
  · intro hn
    rw [updateAverage, if_neg (by omega)]

/-- C9 amended witness: the `n = 2` branch evaluated concretely. -/
theorem stored_average_formula_witness :
    updateAverage (1 / 2) 2 (1 / 4)
      = round3 (((1 / 2) * (((2 : Nat) : ℚ) - 1) + 1 / 4) / ((2 : Nat) : ℚ)) :=
  (stored_average_formula (1 / 2) (1 / 4) 2).2 (by norm_num)

/-! ## C10: responses are sent only for truthy handler results -/

/-- C10: `_handle_message` publishes a response only when the handler result
is truthy in Python's sense: a `None` result and an empty-dict result both
suppress the response entirely, while a non-empty result yields exactly the
one response message built by `_send_response`. -/
theorem response_only_for_truthy_result (agentId : String) (maxRetries : Nat)
    (handler : Nat → ExecResult) (r : Option Payload) (m : A2AMessage)
    (arrivalTs : String) (now : Nat) (nowStr : String) (elapsed : ℚ)
    (s : AgentState)
    (h0 : handler 0 = .ok r)
    (hfresh : m.message_id ++ "_" ++ arrivalTs ∉ s.processing_requests) :
    ((r = none ∨ r = some []) →
      (handleMessage agentId maxRetries handler m arrivalTs now nowStr
        elapsed s).2 = [])
    ∧ (∀ p, r = some p → p ≠ [] →
      (handleMessage agentId maxRetries handler m arrivalTs now nowStr
        elapsed s).2 = [mkResponseMessage agentId now m p]) := by
  have hok : executeWithRetry maxRetries handler 0 = (.ok r, 1) := by
    rw [executeWithRetry, h0]
  constructor
  · rintro (rfl | rfl) <;> simp [handleMessage, hfresh, hok]
  · rintro p rfl hp
    have hpe : p.isEmpty = false := by
      cases p
      · exact absurd rfl hp
      · rfl
    simp [handleMessage, hfresh, hok, hpe]

/-- C10 witness: a handler returning the empty dict causes no response. -/
theorem response_only_for_truthy_result_witness :
    (handleMessage "bob" 3 (fun _ => .ok (some [])) sampleMessage "100" 0
      "t0" 1 emptyAgent).2 = [] :=
  (response_only_for_truthy_result "bob" 3 (fun _ => .ok (some []))
    (some []) sampleMessage "100" 0 "t0" 1 emptyAgent rfl (by decide)).1
    (Or.inr rfl)

end ESGPilot
